import Mathlib

/-!
Verification of the Deck & Spread Resolution Engine of the tarot-telegram-bot
repository. The data model and operations are translated from the Python
sources (tarot_deck.py, tarot_bot.py, database.py). Components whose code is
referenced but not present in the sources (the TarotSpreads registry and the
truncated tail of tarot_deck.py, including TarotDeck.draw_cards) are modelled
from the specification and marked as such in their doc comments.
-/

/-- Card type enumeration, from tarot_deck.py (class CardType). -/
inductive CardType where
  | MAJOR
  | CUPS
  | SWORDS
  | WANDS
  | PENTACLES
deriving DecidableEq, Repr

/-- The Russian display value of each card type, from tarot_deck.py lines 16-20. -/
def CardType.value : CardType → String
  | .MAJOR => "Старшие Арканы"
  | .CUPS => "Кубки"
  | .SWORDS => "Мечи"
  | .WANDS => "Жезлы"
  | .PENTACLES => "Пентакли"

/-- Inverse of CardType.value: the CardType constructor call on a string label,
from tarot_deck.py line 99; an unknown label raises ValueError in Python,
modelled as none. -/
def CardType.ofValue (s : String) : Option CardType :=
  if s = "Старшие Арканы" then some .MAJOR
  else if s = "Кубки" then some .CUPS
  else if s = "Мечи" then some .SWORDS
  else if s = "Жезлы" then some .WANDS
  else if s = "Пентакли" then some .PENTACLES
  else none

/-- A Tarot card, from the dataclass TarotCard in tarot_deck.py lines 22-32. -/
structure TarotCard where
  name : String
  upright : String
  reversed : String
  card_type : CardType
  number : Option Int
  keywords : List String
  element : String
  astro : String
deriving DecidableEq, Repr

/-- Construction of a TarotCard with the dataclass defaults followed by
TarotCard.post_init (tarot_deck.py lines 29-36): a keywords argument of
None is replaced by the empty list. -/
def TarotCard.make (name upright rvsd : String) (card_type : CardType)
    (number : Option Int := none) (keywords : Option (List String) := none)
    (element : String := "") (astro : String := "") : TarotCard :=
  { name := name, upright := upright, reversed := rvsd, card_type := card_type,
    number := number, keywords := keywords.getD [], element := element, astro := astro }

/-- TarotCard.get_meaning, tarot_deck.py lines 38-40. -/
def TarotCard.get_meaning (c : TarotCard) (is_reversed : Bool) : String :=
  if is_reversed then c.reversed else c.upright

/-- TarotCard.get_short_meaning, tarot_deck.py lines 42-45: truncate the
meaning to max_length characters followed by "..." when it is longer than
max_length. -/
def TarotCard.get_short_meaning (c : TarotCard) (is_reversed : Bool)
    (max_length : Nat := 100) : String :=
  let meaning := c.get_meaning is_reversed
  if max_length < meaning.length then String.mk (meaning.data.take max_length) ++ "..."
  else meaning

/-- TarotCard.get_description, tarot_deck.py lines 47-65. -/
def TarotCard.get_description (c : TarotCard) (is_reversed : Bool) : String :=
  let position := if is_reversed then "🔻 Перевернутая" else "🔺 Прямая"
  let d1 := "🎴 *" ++ c.name ++ "*\n" ++ "📊 *Тип:* " ++ c.card_type.value ++ "\n"
    ++ "⚖️ *Положение:* " ++ position ++ "\n\n"
    ++ "📖 *Значение:*\n" ++ c.get_meaning is_reversed ++ "\n\n"
  let d2 := if c.keywords.isEmpty then d1
    else d1 ++ "🏷️ *Ключевые слова:* " ++ String.intercalate ", " c.keywords ++ "\n"
  let d3 := if c.element = "" then d2 else d2 ++ "🌿 *Стихия:* " ++ c.element ++ "\n"
  if c.astro = "" then d3 else d3 ++ "⭐ *Астрология:* " ++ c.astro ++ "\n"

/-- TarotCard.get_short_description, tarot_deck.py lines 67-69. -/
def TarotCard.get_short_description (c : TarotCard) (is_reversed : Bool) : String :=
  c.name ++ " (" ++ (if is_reversed then "🔻" else "🔺") ++ ") - "
    ++ c.get_short_meaning is_reversed

/-- TarotCard.to_dict, tarot_deck.py lines 71-79, as an ordered association
list mirroring the Python dict's insertion order. -/
def TarotCard.to_dict (c : TarotCard) (is_reversed : Bool) : List (String × String) :=
  [("name", c.name),
   ("type", c.card_type.value),
   ("position", if is_reversed then "reversed" else "upright"),
   ("meaning", c.get_meaning is_reversed),
   ("short_meaning", c.get_short_meaning is_reversed)]

/-- A raw record of the external catalog source (one JSON object of
data/tarot_deck.json), per tarot_deck.py lines 95-100 and spec section 6:
fields name, upright, reversed, card_type (a string label), and the optional
fields. -/
structure CardData where
  name : String
  upright : String
  rvsd : String
  card_type : String
  number : Option Int
  keywords : Option (List String)
  element : String
  astro : String
deriving DecidableEq, Repr

/-- Parsing one external record, tarot_deck.py lines 99-100: convert the
card_type string through the CardType constructor (ValueError on an unknown
label, modelled as none), then build the TarotCard dataclass. -/
def parse_card (d : CardData) : Option TarotCard :=
  (CardType.ofValue d.card_type).map fun ct =>
    TarotCard.make d.name d.upright d.rvsd ct d.number d.keywords d.element d.astro

/-- The built-in basic deck, TarotDeck.create_basic_deck, tarot_deck.py
lines 111-145. The provided tarot_deck.py is truncated inside the Wands
list; the Wands tail and the Pentacles suit are
modelled from the spec (built-in minimal catalog with cards of every type),
following the visible Ace/Two pattern of the other suits. -/
def basic_deck : List TarotCard :=
  [TarotCard.make "0. Шут" "Начало, свобода, невинность" "Безрассудство, риск" .MAJOR
     (some 0) (some ["начало", "свобода"]) "Воздух",
   TarotCard.make "I. Маг" "Воля, мастерство, концентрация" "Манипуляции, слабость" .MAJOR
     (some 1) (some ["воля", "мастерство"]) "Меркурий",
   TarotCard.make "II. Верховная Жрица" "Интуиция, тайное знание" "Скрытые мотивы" .MAJOR
     (some 2) (some ["интуиция", "тайны"]) "Луна",
   TarotCard.make "III. Императрица" "Изобилие, творчество" "Зависимость" .MAJOR
     (some 3) (some ["изобилие", "творчество"]) "Венера",
   TarotCard.make "IV. Император" "Власть, структура" "Тирания" .MAJOR
     (some 4) (some ["власть", "структура"]) "Марс",
   TarotCard.make "Туз Кубков" "Новые чувства, любовь" "Эмоциональная пустота" .CUPS
     (some 1) (some ["любовь", "чувства"]) "Вода",
   TarotCard.make "Двойка Кубков" "Единство, гармония" "Разрыв" .CUPS
     (some 2) (some ["партнерство", "гармония"]) "Вода",
   TarotCard.make "Туз Мечей" "Ясность, правда" "Путаница" .SWORDS
     (some 1) (some ["ясность", "правда"]) "Воздух",
   TarotCard.make "Двойка Мечей" "Выбор, баланс" "Неуверенность" .SWORDS
     (some 2) (some ["выбор", "баланс"]) "Воздух",
   TarotCard.make "Туз Жезлов" "Вдохновение, энергия" "Задержки" .WANDS
     (some 1) (some ["вдохновение", "энергия"]) "Огонь",
   TarotCard.make "Двойка Жезлов" "Планирование, выбор пути" "Страх перемен" .WANDS
     (some 2) (some ["планы", "выбор"]) "Огонь",
   TarotCard.make "Туз Пентаклей" "Новые возможности, достаток" "Упущенный шанс" .PENTACLES
     (some 1) (some ["возможности", "достаток"]) "Земля",
   TarotCard.make "Двойка Пентаклей" "Баланс, гибкость" "Перегрузка" .PENTACLES
     (some 2) (some ["баланс", "гибкость"]) "Земля"]

/-- The record-appending loop of TarotDeck.load_deck, tarot_deck.py lines
98-100: records are parsed and appended one at a time; the first parse
failure raises, leaving the cards appended so far in place. Returns the
accumulated cards and whether the whole list parsed. -/
def load_cards_from : List CardData → List TarotCard × Bool
  | [] => ([], true)
  | d :: rest =>
    match parse_card d with
    | none => ([], false)
    | some c =>
      let r := load_cards_from rest
      (c :: r.1, r.2)

/-- Modelled from the spec: TarotDeck.load_deck, tarot_deck.py lines
88-109, combined with the card-installing tail of create_basic_deck, which
lies beyond the truncation point of the provided tarot_deck.py. When the
external source is present its records are parsed in order (the loop at
lines 98-100); on success the deck is exactly those cards; on a parse
failure the exception is caught (logged) and create_basic_deck installs the
built-in deck — per spec section 4.1 the fallback replaces the deck
contents with the built-in minimal catalog, so partial or corrupt data from
the malformed source never loads. When no external source exists, the deck
is just the basic deck. -/
def load_deck (source : Option (List CardData)) : List TarotCard :=
  match source with
  | none => basic_deck
  | some ds =>
    let r := load_cards_from ds
    if r.2 then r.1 else basic_deck

/-- A spread definition: the dict returned by TarotSpreads.get_spread_info,
with the keys used by tarot_bot.py (name, description, cards, type,
positions). -/
structure SpreadDefinition where
  name : String
  description : String
  cards : Nat
  type : String
  positions : List String
deriving DecidableEq, Repr

/-- Modelled from the spec: tarot_spreads.py (class TarotSpreads) is imported
by tarot_bot.py but absent from the provided sources. The registry is
modelled from spec sections 4.3 and 8, which document the single-card daily
spread (1 card) and the three-card spread (3 cards, positions
Прошлое/Настоящее/Будущее) and direct that other spreads' card counts must
not be guessed from the incomplete data; lookup of an unknown identifier
returns the not-found signal (None). -/
def get_spread_info (spread_type : String) : Option SpreadDefinition :=
  if spread_type = "daily" then
    some { name := "Карта дня", description := "Одна карта на день",
           cards := 1, type := "daily", positions := ["Карта дня"] }
  else if spread_type = "three_cards" then
    some { name := "Три карты", description := "Прошлое - Настоящее - Будущее",
           cards := 3, type := "three_cards",
           positions := ["Прошлое", "Настоящее", "Будущее"] }
  else none

/-- Failure of a draw: the spec's InsufficientCardsError (section 4.2). -/
inductive DeckError where
  | insufficientCards
deriving DecidableEq, Repr

/-- Modelled from the spec: TarotDeck.draw_cards is called by tarot_bot.py
line 180 but the provided tarot_deck.py is truncated before its definition.
Modelled from spec section 4.2: the requested count is checked against the
number of loaded cards before any sampling (no partial draws); sampling is
without replacement, equivalent to a random permutation of the deck
truncated to n; each drawn card's orientation is an independent coin flip
made after selection. The random permutation (shuffled) and the coin-flip
stream (flips) stand for the random source and are passed as parameters. -/
def draw_cards (deck shuffled : List TarotCard) (flips : Nat → Bool) (n : Nat) :
    Except DeckError (List (TarotCard × Bool)) :=
  if deck.length < n then Except.error DeckError.insufficientCards
  else Except.ok ((shuffled.take n).enum.map fun p => (p.2, flips p.1))

/-- The position label of the i-th drawn card (1-indexed), from
tarot_bot.py line 216: the i-th configured label when i is at most the
number of configured positions, otherwise the synthesized generic label. -/
def position_label (positions : List String) (i : Nat) : String :=
  if i ≤ positions.length then positions.getD (i - 1) ""
  else "Карта " ++ toString i

/-- Pair drawn cards in draw order with their position labels, starting at
1-index i, per tarot_bot.py lines 215-216. -/
def pairWithPositions (positions : List String) : Nat → List (TarotCard × Bool) →
    List (String × TarotCard × Bool)
  | _, [] => []
  | i, c :: rest => (position_label positions i, c) :: pairWithPositions positions (i + 1) rest

/-- A resolved reading: the spread identifier together with the ordered list
of (position label, drawn card, orientation) triples (spec section 3). -/
structure Reading where
  spread_id : String
  cards : List (String × TarotCard × Bool)
deriving DecidableEq, Repr

/-- Failure of a resolution: the spec's UnknownSpreadError and a propagated
InsufficientCardsError (spec section 7). -/
inductive ResolveError where
  | unknownSpread
  | insufficientCards
deriving DecidableEq, Repr

/-- Modelled from the spec: the Reading Resolver of spec section 4.4 — in the
source, TarotBot.handle_quick_spread composed with the absent TarotSpreads
registry and the truncated TarotDeck.draw_cards. Look up the spread
definition (UnknownSpreadError when absent), draw that many cards, and pair
them in draw order with the position labels. -/
def resolve (deck shuffled : List TarotCard) (flips : Nat → Bool) (spread_id : String) :
    Except ResolveError Reading :=
  match get_spread_info spread_id with
  | none => Except.error ResolveError.unknownSpread
  | some info =>
    match draw_cards deck shuffled flips info.cards with
    | Except.error _ => Except.error ResolveError.insufficientCards
    | Except.ok cs => Except.ok { spread_id := spread_id, cards := pairWithPositions info.positions 1 cs }

/-- The body of the three-card branch of TarotBot.format_spread_response,
tarot_bot.py lines 207-209: enumerate the zipped (drawn card, position)
pairs from 1. -/
def three_cards_body : Nat → List ((TarotCard × Bool) × String) → String
  | _, [] => ""
  | i, ((card, rev), pos) :: rest =>
    "*" ++ toString i ++ ". " ++ pos ++ ":*\n" ++ card.get_description rev ++ "\n\n"
      ++ three_cards_body (i + 1) rest

/-- The body of the generic branch of TarotBot.format_spread_response,
tarot_bot.py lines 215-218: enumerate drawn cards from 1, labelling each by
position_label. -/
def generic_body (positions : List String) : Nat → List (TarotCard × Bool) → String
  | _, [] => ""
  | i, (card, rev) :: rest =>
    "*" ++ toString i ++ ". " ++ position_label positions i ++ ":*\n"
      ++ card.get_short_description rev ++ "\n\n" ++ generic_body positions (i + 1) rest

/-- TarotBot.format_spread_response, tarot_bot.py lines 194-220. The daily
branch reads cards_data[0]; in Python an empty list would raise IndexError
there, a case unreachable for a resolved reading (modelled as the bare
header). -/
def format_spread_response (info : SpreadDefinition) (cards_data : List (TarotCard × Bool))
    (user_name : String) : String :=
  let response := "✨ *" ++ info.name ++ " для " ++ user_name ++ "* ✨\n\n"
  if info.type = "daily" then
    match cards_data with
    | (card, rev) :: _ =>
      response ++ card.get_description rev ++ "\n\n🌅 *Совет на день:* Прислушайтесь к интуиции!"
    | [] => response
  else if info.type = "three_cards" then
    response ++ "*" ++ info.description ++ "*\n\n"
      ++ three_cards_body 1 (cards_data.zip info.positions)
  else
    response ++ "*" ++ info.description ++ "*\n\n" ++ generic_body info.positions 1 cards_data

/-- An observable side effect of TarotBot.handle_quick_spread: a Telegram
message send, a deck draw, a persisted reading row, or a user-activity
update. -/
inductive Effect where
  | sendMessage (text : String)
  | draw (n : Nat)
  | save (user_id : Int) (spread_type : String) (cards : List (TarotCard × Bool))
  | updateActivity (user_id : Int)
deriving DecidableEq, Repr

/-- Whether an effect is a deck draw. -/
def Effect.isDraw : Effect → Bool
  | .draw _ => true
  | _ => false

/-- Whether an effect is a persisted reading row (Database.save_reading). -/
def Effect.isSave : Effect → Bool
  | .save _ _ _ => true
  | _ => false

/-- Whether an effect is a user-activity update (Database.update_user_activity). -/
def Effect.isUpdateActivity : Effect → Bool
  | .updateActivity _ => true
  | _ => false

/-- TarotBot.handle_quick_spread, tarot_bot.py lines 170-192, as the ordered
list of side effects it performs. When the spread is unknown it only sends
the not-found message and returns; otherwise it draws, saves the reading,
updates user activity and sends the formatted response. A draw failure
(exception) propagates out of the handler after the draw attempt, so only
the draw effect is recorded in that case. The registry and the draw are the
spec-modelled collaborators above. -/
def handle_quick_spread (deck shuffled : List TarotCard) (flips : Nat → Bool)
    (user_id : Int) (user_name : String) (spread_type : String) : List Effect :=
  match get_spread_info spread_type with
  | none => [Effect.sendMessage "❌ Расклад не найден"]
  | some info =>
    match draw_cards deck shuffled flips info.cards with
    | Except.error _ => [Effect.draw info.cards]
    | Except.ok cards_data =>
      [Effect.draw info.cards,
       Effect.save user_id spread_type cards_data,
       Effect.updateActivity user_id,
       Effect.sendMessage (format_spread_response info cards_data user_name)]

/-- One row of the users table, database.py lines 35-48 (the columns the
activity update touches). -/
structure UserRow where
  user_id : Int
  cards_drawn : Nat
  readings_count : Nat
  last_activity : Nat
deriving DecidableEq, Repr

/-- Database.update_user_activity, database.py lines 84-95: set
last_activity to now and increment both cards_drawn and readings_count by
one. -/
def update_user_activity (now : Nat) (row : UserRow) : UserRow :=
  { row with last_activity := now,
             cards_drawn := row.cards_drawn + 1,
             readings_count := row.readings_count + 1 }

/-- A concrete card used to evaluate the claims on explicit inputs (a card
of the built-in basic deck, tarot_deck.py line 129). -/
def sampleCard : TarotCard :=
  TarotCard.make "Туз Кубков" "Новые чувства, любовь" "Эмоциональная пустота" CardType.CUPS
    (some 1) (some ["любовь", "чувства"]) "Вода"

/-- A small concrete deck of three cards with pairwise distinct names, used
as evaluation input. -/
def testDeck : List TarotCard :=
  [TarotCard.make "A" "au" "ar" CardType.MAJOR,
   TarotCard.make "B" "bu" "br" CardType.CUPS,
   TarotCard.make "C" "cu" "cr" CardType.SWORDS]

/-- A well-formed external catalog record. -/
def goodData : CardData :=
  { name := "Хорошая Карта", upright := "смысл", rvsd := "обратный смысл",
    card_type := "Кубки", number := none, keywords := none, element := "", astro := "" }

/-- The card goodData parses to. -/
def goodCard : TarotCard :=
  TarotCard.make "Хорошая Карта" "смысл" "обратный смысл" CardType.CUPS

/-- A malformed external catalog record: its card_type label is not one of
the five CardType values, so the CardType constructor raises. -/
def badData : CardData :=
  { name := "Плохая Карта", upright := "x", rvsd := "y",
    card_type := "Неизвестный Тип", number := none, keywords := none, element := "", astro := "" }

theorem draw_cards_eq_ok (deck shuffled : List TarotCard) (flips : Nat → Bool) (n : Nat)
    (hn : n ≤ deck.length) :
    draw_cards deck shuffled flips n =
      Except.ok ((shuffled.take n).enum.map fun p => (p.2, flips p.1)) := by
  simp [draw_cards, Nat.not_lt.mpr hn]

theorem drawn_names (shuffled : List TarotCard) (flips : Nat → Bool) (n : Nat) :
    (((shuffled.take n).enum.map fun p => (p.2, flips p.1)).map fun c => c.1.name)
      = (shuffled.map TarotCard.name).take n := by
  rw [List.map_map]
  have h : ((fun c : TarotCard × Bool => c.1.name) ∘ fun p : Nat × TarotCard => (p.2, flips p.1))
      = TarotCard.name ∘ Prod.snd := rfl
  rw [h, ← List.map_map, List.enum_map_snd, List.map_take]

theorem drawn_length (deck shuffled : List TarotCard) (flips : Nat → Bool) (n : Nat)
    (hp : shuffled.Perm deck) (hn : n ≤ deck.length) :
    ((shuffled.take n).enum.map fun p => (p.2, flips p.1)).length = n := by
  rw [List.length_map, List.enum_length, List.length_take, hp.length_eq]
  exact Nat.min_eq_left hn

theorem drawn_nodup (deck shuffled : List TarotCard) (flips : Nat → Bool) (n : Nat)
    (hp : shuffled.Perm deck) (hnd : (deck.map TarotCard.name).Nodup) :
    ((((shuffled.take n).enum.map fun p => (p.2, flips p.1)).map fun c => c.1.name)).Nodup := by
  rw [drawn_names]
  exact List.Nodup.sublist (List.take_sublist _ _) (((hp.map TarotCard.name)).nodup_iff.mpr hnd)

theorem pairWithPositions_map_snd (positions : List String) :
    ∀ (i : Nat) (cs : List (TarotCard × Bool)),
      (pairWithPositions positions i cs).map Prod.snd = cs := by
  intro i cs
  induction cs generalizing i with
  | nil => rfl
  | cons c rest ih => simp [pairWithPositions, ih]

theorem pairWithPositions_length (positions : List String) :
    ∀ (i : Nat) (cs : List (TarotCard × Bool)),
      (pairWithPositions positions i cs).length = cs.length := by
  intro i cs
  induction cs generalizing i with
  | nil => rfl
  | cons c rest ih => simp [pairWithPositions, ih]

theorem pairWithPositions_get? (positions : List String) :
    ∀ (cs : List (TarotCard × Bool)) (i k : Nat) (pc : TarotCard × Bool),
      cs.get? k = some pc →
      (pairWithPositions positions i cs).get? k = some (position_label positions (i + k), pc) := by
  intro cs
  induction cs with
  | nil => intro i k pc h; simp at h
  | cons c rest ih =>
    intro i k pc h
    cases k with
    | zero =>
      simp at h
      simp [pairWithPositions, h]
    | succ k =>
      simp only [List.get?] at h
      have h2 := ih (i + 1) k pc h
      have he : i + 1 + k = i + (k + 1) := by omega
      rw [he] at h2
      exact h2

theorem load_cards_from_stops_at_bad (d : CardData) (hd : parse_card d = none) :
    ∀ (goods rest : List CardData), (∀ g ∈ goods, (parse_card g).isSome) →
      load_cards_from (goods ++ d :: rest) = (goods.filterMap parse_card, false) := by
  intro goods
  induction goods with
  | nil => intro rest _; simp [load_cards_from, hd]
  | cons g gs ih =>
    intro rest hg
    have hgood : (parse_card g).isSome := hg g (List.mem_cons_self _ _)
    obtain ⟨c, hc⟩ := Option.isSome_iff_exists.mp hgood
    have hrest := ih rest (fun x hx => hg x (List.mem_cons_of_mem _ hx))
    simp [load_cards_from, hc, hrest, List.filterMap_cons]

/-- C10: after construction, the keywords attribute is always a list and
never None: an omitted or None keywords argument is replaced by the empty
list, and a given list is kept as is. -/
theorem make_keywords_never_none (name upright rvsd : String) (ct : CardType)
    (number : Option Int) (element astro : String) :
    (TarotCard.make name upright rvsd ct number none element astro).keywords = []
    ∧ ∀ ks : List String,
        (TarotCard.make name upright rvsd ct number (some ks) element astro).keywords = ks :=
  ⟨rfl, fun _ => rfl⟩

/-- C9: for every card, orientation and positive max_length, the short
meaning is the meaning unchanged when its length is at most max_length, and
otherwise exactly the first max_length characters followed by "..."; hence
its length never exceeds max_length + 3. -/
theorem get_short_meaning_truncation (c : TarotCard) (rev : Bool) (max_length : Nat)
    (hpos : 0 < max_length) :
    ((c.get_meaning rev).length ≤ max_length →
        c.get_short_meaning rev max_length = c.get_meaning rev)
    ∧ (max_length < (c.get_meaning rev).length →
        (c.get_short_meaning rev max_length).data
          = (c.get_meaning rev).data.take max_length ++ "...".data)
    ∧ (c.get_short_meaning rev max_length).length ≤ max_length + 3 := by
  by_cases h : max_length < (c.get_meaning rev).length
  · have hdata : (c.get_short_meaning rev max_length).data
        = (c.get_meaning rev).data.take max_length ++ "...".data := by
      simp [TarotCard.get_short_meaning, h, String.data_append]
    refine ⟨fun hle => absurd h (Nat.not_lt.mpr hle), fun _ => hdata, ?_⟩
    have hlen : (c.get_short_meaning rev max_length).length
        = ((c.get_meaning rev).data.take max_length).length + 3 := by
      rw [show (c.get_short_meaning rev max_length).length
          = (c.get_short_meaning rev max_length).data.length from rfl, hdata,
        List.length_append]
      have h3 : ("...".data).length = 3 := by decide
      omega
    have hle := List.length_take_le max_length (c.get_meaning rev).data
    omega
  · have hs : c.get_short_meaning rev max_length = c.get_meaning rev := by
      simp [TarotCard.get_short_meaning, h]
    refine ⟨fun _ => hs, fun hlt => absurd hlt h, ?_⟩
    rw [hs]
    omega

theorem get_short_meaning_truncation_witness :
    0 < 5
    ∧ (((sampleCard.get_meaning false).length ≤ 5 →
        sampleCard.get_short_meaning false 5 = sampleCard.get_meaning false)
      ∧ (5 < (sampleCard.get_meaning false).length →
        (sampleCard.get_short_meaning false 5).data
          = (sampleCard.get_meaning false).data.take 5 ++ "...".data)
      ∧ (sampleCard.get_short_meaning false 5).length ≤ 5 + 3) :=
  ⟨by decide, get_short_meaning_truncation sampleCard false 5 (by decide)⟩

/-- C3 counterexample: the claim says the stored record never contains the
card's meaning text, but TarotCard.to_dict (tarot_deck.py lines 71-79) puts
both the full meaning and the short meaning into the record: for sampleCard
upright, the record has a meaning entry equal to the upright meaning text. -/
theorem to_dict_contains_meaning_text :
    (sampleCard.to_dict false).lookup "meaning" = some "Новые чувства, любовь"
    ∧ ("meaning", sampleCard.get_meaning false) ∈ sampleCard.to_dict false
    ∧ ("short_meaning", sampleCard.get_short_meaning false) ∈ sampleCard.to_dict false := by
  refine ⟨rfl, ?_, ?_⟩ <;> decide

/-- C3 amended: serializing a DrawnCard produces a record with the card's
name, its card_type value, and a position field equal to "reversed" exactly
when the orientation is reversed and "upright" otherwise — but the record
additionally contains the meaning text: entries for the selected meaning
and its shortened form. -/
theorem to_dict_fields (c : TarotCard) (rev : Bool) :
    (c.to_dict rev).lookup "name" = some c.name
    ∧ (c.to_dict rev).lookup "type" = some c.card_type.value
    ∧ (c.to_dict rev).lookup "position" = some (if rev then "reversed" else "upright")
    ∧ (c.to_dict rev).lookup "meaning" = some (c.get_meaning rev)
    ∧ (c.to_dict rev).lookup "short_meaning" = some (c.get_short_meaning rev) :=
  ⟨rfl, rfl, rfl, rfl, rfl⟩

/-- C2: for every n at most the deck size, drawing n cards succeeds with
exactly n cards of pairwise distinct names; for n greater than the deck
size the draw fails with InsufficientCardsError before any sampling (the
failure does not depend on the random source) and produces no partial
sequence. -/
theorem draw_cards_count_and_error (deck shuffled : List TarotCard) (flips : Nat → Bool)
    (n : Nat) (hp : shuffled.Perm deck) (hnd : (deck.map TarotCard.name).Nodup) :
    (n ≤ deck.length →
        ∃ cs, draw_cards deck shuffled flips n = Except.ok cs ∧ cs.length = n ∧
          (cs.map fun c => c.1.name).Nodup)
    ∧ (deck.length < n →
        draw_cards deck shuffled flips n = Except.error DeckError.insufficientCards
        ∧ ∀ (shuffled2 : List TarotCard) (flips2 : Nat → Bool),
            draw_cards deck shuffled2 flips2 n = Except.error DeckError.insufficientCards) := by
  constructor
  · intro hn
    refine ⟨_, draw_cards_eq_ok deck shuffled flips n hn,
      drawn_length deck shuffled flips n hp hn, drawn_nodup deck shuffled flips n hp hnd⟩
  · intro hgt
    constructor
    · simp [draw_cards, hgt]
    · intro shuffled2 flips2
      simp [draw_cards, hgt]

theorem draw_cards_count_and_error_witness :
    (testDeck.Perm testDeck ∧ (testDeck.map TarotCard.name).Nodup)
    ∧ ((2 ≤ testDeck.length →
        ∃ cs, draw_cards testDeck testDeck (fun _ => false) 2 = Except.ok cs ∧ cs.length = 2 ∧
          (cs.map fun c => c.1.name).Nodup)
      ∧ (testDeck.length < 2 →
        draw_cards testDeck testDeck (fun _ => false) 2 = Except.error DeckError.insufficientCards
        ∧ ∀ (shuffled2 : List TarotCard) (flips2 : Nat → Bool),
            draw_cards testDeck shuffled2 flips2 2 = Except.error DeckError.insufficientCards)) :=
  ⟨⟨List.Perm.refl _, by decide⟩,
    draw_cards_count_and_error testDeck testDeck (fun _ => false) 2 (List.Perm.refl _) (by decide)⟩

/-- C1: for every supported spread identifier, resolving a reading returns a
Reading whose list of drawn cards has length equal to the spread's
registered cards count, and the card names within that one Reading are
pairwise distinct. -/
theorem resolve_reading_length_and_distinct (spread_id : String) (info : SpreadDefinition)
    (hinfo : get_spread_info spread_id = some info)
    (deck shuffled : List TarotCard) (flips : Nat → Bool)
    (hp : shuffled.Perm deck) (hnd : (deck.map TarotCard.name).Nodup)
    (hle : info.cards ≤ deck.length) :
    ∃ r, resolve deck shuffled flips spread_id = Except.ok r
      ∧ (r.cards.map Prod.snd).length = info.cards
      ∧ ((r.cards.map Prod.snd).map fun c => c.1.name).Nodup := by
  have hok := draw_cards_eq_ok deck shuffled flips info.cards hle
  refine ⟨{ spread_id := spread_id,
            cards := pairWithPositions info.positions 1
              ((shuffled.take info.cards).enum.map fun p => (p.2, flips p.1)) }, ?_, ?_, ?_⟩
  · simp only [resolve, hinfo, hok]
  · rw [pairWithPositions_map_snd]
    exact drawn_length deck shuffled flips info.cards hp hle
  · rw [pairWithPositions_map_snd]
    exact drawn_nodup deck shuffled flips info.cards hp hnd

theorem resolve_reading_length_and_distinct_witness :
    (get_spread_info "three_cards"
        = some { name := "Три карты", description := "Прошлое - Настоящее - Будущее",
                 cards := 3, type := "three_cards",
                 positions := ["Прошлое", "Настоящее", "Будущее"] }
      ∧ testDeck.Perm testDeck ∧ (testDeck.map TarotCard.name).Nodup ∧ 3 ≤ testDeck.length)
    ∧ ∃ r, resolve testDeck testDeck (fun _ => false) "three_cards" = Except.ok r
      ∧ (r.cards.map Prod.snd).length = 3
      ∧ ((r.cards.map Prod.snd).map fun c => c.1.name).Nodup :=
  ⟨⟨rfl, List.Perm.refl _, by decide, by decide⟩,
    resolve_reading_length_and_distinct "three_cards"
      { name := "Три карты", description := "Прошлое - Настоящее - Будущее",
        cards := 3, type := "three_cards",
        positions := ["Прошлое", "Настоящее", "Будущее"] }
      rfl testDeck testDeck (fun _ => false) (List.Perm.refl _) (by decide) (by decide)⟩

/-- C7: resolving "three_cards" against a catalog of at least 3 cards
returns a Reading with exactly 3 drawn cards whose names are pairwise
distinct, paired in draw order with the position labels Прошлое, Настоящее,
Будущее in exactly that order. -/
theorem resolve_three_cards_labels (deck shuffled : List TarotCard) (flips : Nat → Bool)
    (hp : shuffled.Perm deck) (hnd : (deck.map TarotCard.name).Nodup)
    (h3 : 3 ≤ deck.length) :
    ∃ r, resolve deck shuffled flips "three_cards" = Except.ok r
      ∧ (r.cards.map Prod.snd).length = 3
      ∧ ((r.cards.map Prod.snd).map fun c => c.1.name).Nodup
      ∧ r.cards.map Prod.fst = ["Прошлое", "Настоящее", "Будущее"] := by
  have hinfo : get_spread_info "three_cards"
      = some { name := "Три карты", description := "Прошлое - Настоящее - Будущее",
               cards := 3, type := "three_cards",
               positions := ["Прошлое", "Настоящее", "Будущее"] } := rfl
  have hok := draw_cards_eq_ok deck shuffled flips 3 h3
  have hlen := drawn_length deck shuffled flips 3 hp h3
  obtain ⟨c1, c2, c3, hcs⟩ := List.length_eq_three.mp hlen
  refine ⟨{ spread_id := "three_cards",
            cards := pairWithPositions ["Прошлое", "Настоящее", "Будущее"] 1
              ((shuffled.take 3).enum.map fun p => (p.2, flips p.1)) }, ?_, ?_, ?_, ?_⟩
  · simp only [resolve, hinfo, hok]
  · rw [pairWithPositions_map_snd]
    exact hlen
  · rw [pairWithPositions_map_snd]
    exact drawn_nodup deck shuffled flips 3 hp hnd
  · rw [hcs]
    rfl

theorem resolve_three_cards_labels_witness :
    (testDeck.Perm testDeck ∧ (testDeck.map TarotCard.name).Nodup ∧ 3 ≤ testDeck.length)
    ∧ ∃ r, resolve testDeck testDeck (fun _ => false) "three_cards" = Except.ok r
      ∧ (r.cards.map Prod.snd).length = 3
      ∧ ((r.cards.map Prod.snd).map fun c => c.1.name).Nodup
      ∧ r.cards.map Prod.fst = ["Прошлое", "Настоящее", "Будущее"] :=
  ⟨⟨List.Perm.refl _, by decide, by decide⟩,
    resolve_three_cards_labels testDeck testDeck (fun _ => false)
      (List.Perm.refl _) (by decide) (by decide)⟩

/-- C4: for every spread identifier not in the registry, resolution fails
with UnknownSpreadError (a distinguishable negative result, not a crash),
the handler only sends the not-found message, and in particular the deck's
draw is never invoked and nothing is persisted for that request. -/
theorem unknown_spread_no_draw_no_persist (spread_type : String)
    (h : get_spread_info spread_type = none)
    (deck shuffled : List TarotCard) (flips : Nat → Bool)
    (user_id : Int) (user_name : String) :
    resolve deck shuffled flips spread_type = Except.error ResolveError.unknownSpread
    ∧ handle_quick_spread deck shuffled flips user_id user_name spread_type
        = [Effect.sendMessage "❌ Расклад не найден"]
    ∧ ∀ e ∈ handle_quick_spread deck shuffled flips user_id user_name spread_type,
        e.isDraw = false ∧ e.isSave = false ∧ e.isUpdateActivity = false := by
  refine ⟨?_, ?_, ?_⟩
  · simp only [resolve, h]
  · simp only [handle_quick_spread, h]
  · intro e he
    simp only [handle_quick_spread, h, List.mem_singleton] at he
    subst he
    exact ⟨rfl, rfl, rfl⟩

theorem unknown_spread_no_draw_no_persist_witness :
    get_spread_info "nonexistent_spread_id" = none
    ∧ (resolve testDeck testDeck (fun _ => false) "nonexistent_spread_id"
          = Except.error ResolveError.unknownSpread
      ∧ handle_quick_spread testDeck testDeck (fun _ => false) 42 "Аня" "nonexistent_spread_id"
          = [Effect.sendMessage "❌ Расклад не найден"]
      ∧ ∀ e ∈ handle_quick_spread testDeck testDeck (fun _ => false) 42 "Аня" "nonexistent_spread_id",
          e.isDraw = false ∧ e.isSave = false ∧ e.isUpdateActivity = false) :=
  ⟨rfl, unknown_spread_no_draw_no_persist "nonexistent_spread_id" rfl
    testDeck testDeck (fun _ => false) 42 "Аня"⟩

/-- C8: the per-user activity update performed once per resolved reading
increments cards_drawn by exactly 1 and readings_count by exactly 1; the
handler performs exactly one such update regardless of how many cards the
reading contained, so the persisted cards_drawn aggregate counts readings,
not individual cards. -/
theorem update_activity_increments_once (row : UserRow) (now : Nat)
    (deck shuffled : List TarotCard) (flips : Nat → Bool)
    (user_id : Int) (user_name : String) (spread_type : String) (info : SpreadDefinition)
    (hinfo : get_spread_info spread_type = some info)
    (hp : shuffled.Perm deck) (hle : info.cards ≤ deck.length) :
    (update_user_activity now row).cards_drawn = row.cards_drawn + 1
    ∧ (update_user_activity now row).readings_count = row.readings_count + 1
    ∧ ((handle_quick_spread deck shuffled flips user_id user_name spread_type).filter
        Effect.isUpdateActivity).length = 1 := by
  refine ⟨rfl, rfl, ?_⟩
  have hok := draw_cards_eq_ok deck shuffled flips info.cards hle
  simp only [handle_quick_spread, hinfo, hok]
  rfl

theorem update_activity_increments_once_witness :
    (get_spread_info "daily"
        = some { name := "Карта дня", description := "Одна карта на день",
                 cards := 1, type := "daily", positions := ["Карта дня"] }
      ∧ testDeck.Perm testDeck ∧ 1 ≤ testDeck.length)
    ∧ ((update_user_activity 7
          { user_id := 42, cards_drawn := 10, readings_count := 4, last_activity := 0 }).cards_drawn
            = 10 + 1
      ∧ (update_user_activity 7
          { user_id := 42, cards_drawn := 10, readings_count := 4, last_activity := 0 }).readings_count
            = 4 + 1
      ∧ ((handle_quick_spread testDeck testDeck (fun _ => false) 42 "Аня" "daily").filter
          Effect.isUpdateActivity).length = 1) :=
  ⟨⟨rfl, List.Perm.refl _, by decide⟩,
    update_activity_increments_once
      { user_id := 42, cards_drawn := 10, readings_count := 4, last_activity := 0 } 7
      testDeck testDeck (fun _ => false) 42 "Аня" "daily"
      { name := "Карта дня", description := "Одна карта на день",
        cards := 1, type := "daily", positions := ["Карта дня"] }
      rfl (List.Perm.refl _) (by decide)⟩

/-- C5: if the configured external catalog source exists but is malformed,
the load signals the failure (CatalogLoadError, the caught exception of
tarot_deck.py line 104, modelled as the false flag of load_cards_from) and
falls back to the built-in minimal catalog rather than crashing; the
resulting deck is exactly the built-in catalog, so no card parsed from the
malformed source remains in the deck. -/
theorem load_deck_malformed_fallback (goods : List CardData) (d : CardData)
    (rest : List CardData) (hg : ∀ g ∈ goods, (parse_card g).isSome)
    (hd : parse_card d = none) :
    (load_cards_from (goods ++ d :: rest)).2 = false
    ∧ load_deck (some (goods ++ d :: rest)) = basic_deck
    ∧ ∀ c : TarotCard, c ∈ goods.filterMap parse_card → c ∉ basic_deck →
        c ∉ load_deck (some (goods ++ d :: rest)) := by
  have h := load_cards_from_stops_at_bad d hd goods rest hg
  have hflag : (load_cards_from (goods ++ d :: rest)).2 = false := by rw [h]
  have hdeck : load_deck (some (goods ++ d :: rest)) = basic_deck := by
    simp [load_deck, h]
  refine ⟨hflag, hdeck, ?_⟩
  intro c _ hnb
  rw [hdeck]
  exact hnb

theorem load_deck_malformed_fallback_witness :
    ((∀ g ∈ [goodData], (parse_card g).isSome) ∧ parse_card badData = none)
    ∧ ((load_cards_from ([goodData] ++ badData :: [])).2 = false
      ∧ load_deck (some ([goodData] ++ badData :: [])) = basic_deck
      ∧ ∀ c : TarotCard, c ∈ [goodData].filterMap parse_card → c ∉ basic_deck →
          c ∉ load_deck (some ([goodData] ++ badData :: []))) :=
  ⟨⟨by decide, rfl⟩,
    load_deck_malformed_fallback [goodData] badData [] (by decide) rfl⟩

/-- C6 counterexample: the claim says a drawn card beyond the end of the
label list gets the synthesized label "Card i", but tarot_bot.py line 216
synthesizes the Russian label: for a one-label list, the second card's
label is "Карта 2", not "Card 2". -/
theorem position_label_is_russian :
    position_label ["Прошлое"] 2 = "Карта 2"
    ∧ position_label ["Прошлое"] 2 ≠ "Card 2"
    ∧ pairWithPositions ["Прошлое"] 1 [(goodCard, false), (goodCard, true)]
        = [("Прошлое", goodCard, false), ("Карта 2", goodCard, true)] := by
  refine ⟨?_, ?_, ?_⟩ <;> decide

/-- C6 amended: when the position-label list is shorter than the number of
drawn cards, the card at 1-indexed draw position i with i greater than the
label-list length is paired with the synthesized generic Russian label
"Карта i", and every card at position i at most the label-list length is
paired with the i-th configured label. -/
theorem pair_positions_tail_labels (positions : List String)
    (cs : List (TarotCard × Bool)) (k : Nat) (pc : TarotCard × Bool)
    (h : cs.get? k = some pc) :
    (pairWithPositions positions 1 cs).get? k
      = some ((if k + 1 ≤ positions.length then positions.getD k ""
               else "Карта " ++ toString (k + 1)), pc) := by
  have h2 := pairWithPositions_get? positions cs 1 k pc h
  rw [h2]
  have : position_label positions (1 + k)
      = if k + 1 ≤ positions.length then positions.getD k ""
        else "Карта " ++ toString (k + 1) := by
    rw [position_label, Nat.add_comm 1 k]
    have : k + 1 - 1 = k := rfl
    rw [this]
  rw [this]

theorem pair_positions_tail_labels_witness :
    [(goodCard, false), (goodCard, true)].get? 1 = some (goodCard, true)
    ∧ (pairWithPositions ["Прошлое"] 1 [(goodCard, false), (goodCard, true)]).get? 1
        = some ((if 1 + 1 ≤ ["Прошлое"].length then ["Прошлое"].getD 1 ""
                 else "Карта " ++ toString (1 + 1)), (goodCard, true)) :=
  ⟨rfl, pair_positions_tail_labels ["Прошлое"] [(goodCard, false), (goodCard, true)]
    1 (goodCard, true) rfl⟩
